import Mathlib

set_option maxHeartbeats 1000000

/-!
Shallow embedding of the scratchpad daemon (`wm_scratch_pad/scratchpad.py`).

The daemon's observable behaviour at the EWMH gateway, the process launcher
and the logger is modelled as a trace of effects.  A toggle invocation reads
the client list, the active window's desktop, and (after a spawn) a sequence
of polled client lists; it emits `ewmh` calls, a spawn, and log lines.
-/

namespace Scratchpad

/-- A window as observed through the EWMH gateway: an opaque id, its
window class `(instance, class)` as returned by `get_wm_class()`, and its
current desktop assignment as returned by `getWmDesktop` (the value
4294967295 marks a sticky window). -/
structure Window where
  wid : Nat
  wm_class : String × String
  desktop : Nat
deriving DecidableEq, Repr

/-- Desktop value 0xFFFFFFFF, used by the WM to indicate sticky
(should appear in all desktops) — literal `4294967295` in the source. -/
def stickySentinel : Nat := 4294967295

/-- One externally visible action of a toggle invocation: a call into the
process launcher (`asyncio.create_subprocess_exec`), a call into the EWMH
gateway (`setWmState` / `setWmDesktop`), or a log line. -/
inductive Effect where
  | create_subprocess_exec (cmd : Option String)
  | setWmState (wid : Nat) (action : Nat) (prop : String)
  | setWmDesktop (wid : Nat) (desk : Nat)
  | logInfo (msg : String)
  | logError (msg : String)
deriving DecidableEq, Repr

/-- Whether an effect mutates window state (a gateway write). -/
def Effect.isWindowMutation : Effect → Bool
  | .setWmState _ _ _ => true
  | .setWmDesktop _ _ => true
  | _ => false

/-- Whether an effect is a process spawn. -/
def Effect.isSpawn : Effect → Bool
  | .create_subprocess_exec _ => true
  | _ => false

/-- Registered application: its window class and launch command
(dataclass `ScratchpadApp`). -/
structure ScratchpadApp where
  window_class : String × String
  app_cmd : Option String := none
deriving DecidableEq, Repr

/-- Embeds the `windows` property: the client list filtered to the windows
whose `get_wm_class()` equals this application's `window_class`. -/
def ScratchpadApp.windows (a : ScratchpadApp) (clientList : List Window) : List Window :=
  clientList.filter (fun win => win.wm_class == a.window_class)

/-- Source constant `win_wait_timeout = 3` (seconds). -/
def win_wait_timeout : ℚ := 3

/-- Source constant `win_wait_interval = 0.1` (seconds); the IEEE double
`0.1` is within 6e-18 of the rational 1/10. -/
def win_wait_interval : ℚ := 1 / 10

/-- Loop bound `int(win_wait_timeout / win_wait_interval)` from the spawn
wait loop.  With the source floats, `3 / 0.1` rounds to exactly `30.0` in
IEEE double arithmetic, so `int` of it is 30, agreeing with the exact
rational computation. -/
def win_wait_attempts : Nat := 30

/-- Environment of a single toggle invocation: the client list and the
active window's desktop at entry, and the client list the gateway reports
at the k-th poll of the post-spawn wait loop.  The WM state is sampled,
never cached, which this read-only environment reflects. -/
structure ToggleEnv where
  clientList : List Window
  activeDesktop : Nat
  poll : Nat → List Window

/-- Embeds the post-spawn wait loop
`for _ in range(int(win_wait_timeout / win_wait_interval)): ...`:
poll attempt `k` filters `poll k` by the window class; the first non-empty
match is returned; `none` models the for-else (all attempts exhausted). -/
def waitForWindows (a : ScratchpadApp) (poll : Nat → List Window) :
    Nat → Nat → Option (List Window)
  | 0, _ => none
  | fuel + 1, k =>
    if 0 < (a.windows (poll k)).length then some (a.windows (poll k))
    else waitForWindows a poll fuel (k + 1)

/-- Effects of the Showing branch: log line and the three
`setWmState(win, 1, ...)` calls, in source order. -/
def showEffects (wid : Nat) : List Effect :=
  [Effect.logInfo "Showing",
   Effect.setWmState wid 1 "_NET_WM_STATE_STICKY",
   Effect.setWmState wid 1 "_NET_WM_STATE_ABOVE",
   Effect.setWmState wid 1 "_NET_WM_TYPE_DOCK"]

/-- Effects of the Hiding branch: log line, `setWmDesktop(win,
inactive_desktop)`, and the three `setWmState(win, 0, ...)` calls, in
source order. -/
def hideEffects (wid : Nat) (inactive_desktop : Nat) : List Effect :=
  [Effect.logInfo "Hiding",
   Effect.setWmDesktop wid inactive_desktop,
   Effect.setWmState wid 0 "_NET_WM_STATE_STICKY",
   Effect.setWmState wid 0 "_NET_WM_STATE_ABOVE",
   Effect.setWmState wid 0 "_NET_WM_TYPE_DOCK"]

/-- Embeds the inactive determination
`is_not_active = (getWmDesktop(win) != getWmDesktop(getActiveWindow())
and getWmDesktop(win) != 4294967295)`. -/
def is_not_active (activeDesktop : Nat) (win : Window) : Bool :=
  (win.desktop != activeDesktop) && (win.desktop != stickySentinel)

/-- Per-window body of the toggle loop: route to Showing when
`just_spawned or is_not_active`, otherwise to Hiding. -/
def decideWindow (activeDesktop inactive_desktop : Nat) (just_spawned : Bool)
    (win : Window) : List Effect :=
  if just_spawned || is_not_active activeDesktop win then
    showEffects win.wid
  else
    hideEffects win.wid inactive_desktop

/-- Embeds `ScratchpadApp.toggle_visible`.  If no window matches, the app
is spawned and the wait loop polls for windows; on timeout the invocation
logs an error and returns without window mutation; windows found right
after a spawn are routed with `just_spawned = True`.  Otherwise each
matched window is routed by its own inactive determination. -/
def toggle_visible (a : ScratchpadApp) (env : ToggleEnv)
    (inactive_desktop : Nat) : List Effect :=
  if (a.windows env.clientList).length = 0 then
    match waitForWindows a env.poll win_wait_attempts 0 with
    | some ws =>
        Effect.logInfo "Spawning" :: Effect.create_subprocess_exec a.app_cmd ::
          (ws.map (decideWindow env.activeDesktop inactive_desktop true)).flatten
    | none =>
        [Effect.logInfo "Spawning", Effect.create_subprocess_exec a.app_cmd,
         Effect.logError "Failed to find window"]
  else
    ((a.windows env.clientList).map
      (decideWindow env.activeDesktop inactive_desktop false)).flatten

/-- One externally visible action of the command-channel listener. -/
inductive ListenerEffect where
  | logInfo (msg : String)
  | logError (msg : String)
  | create_task_toggle (app_name : String)
deriving DecidableEq, Repr

/-- The app registry built in the `__main__` block. -/
def scratchpad_apps : List (String × ScratchpadApp) :=
  [("spotify",
    { window_class := ("spotify", "Spotify"),
      app_cmd := some "/home/pedro/.nix-profile/bin/spotify" }),
   ("obsidian",
    { window_class := ("obsidian", "obsidian"),
      app_cmd := some "/home/pedro/.nix-profile/bin/obsidian" })]

/-- ASCII whitespace stripped by Python `str.strip()`: space, tab, newline,
carriage return, vertical tab and form feed. -/
def isStripped (c : Char) : Bool :=
  c = ' ' || c = '\t' || c = '\n' || c = '\r' || c = '\x0b' || c = '\x0c'

/-- Embeds Python `str.strip()` on the decoded payload: drop leading and
trailing whitespace characters. -/
def pyStrip (s : String) : String :=
  String.mk (((s.data.dropWhile isStripped).reverse.dropWhile isStripped).reverse)

/-- Embeds `ScratchpadReaderProtocol.data_received`: decode and strip the
payload; a registry hit schedules that app's toggle as an independent
task, a miss logs an error.  (The source logs the repr of the token; the
quotes around it are elided here.) -/
def data_received (data : String) : List ListenerEffect :=
  ListenerEffect.logInfo ("Handling scratchpad command: " ++ pyStrip data) ::
    (match scratchpad_apps.lookup (pyStrip data) with
     | some _ => [ListenerEffect.create_task_toggle (pyStrip data)]
     | none => [ListenerEffect.logError ("Unknown app " ++ pyStrip data)])

/-- The listener as a whole: every received payload is handled by
`data_received`; no payload stops the processing of later ones. -/
def listenLoop : List String → List ListenerEffect
  | [] => []
  | d :: ds => data_received d ++ listenLoop ds

/-- State visible to the singleton-supervisor part of `main`: the pid
recorded in the PID file (if the file exists) and the set of live process
ids. -/
structure SysState where
  pid_file : Option Nat
  alive : List Nat
deriving DecidableEq, Repr

/-- One externally visible action of the singleton supervisor. -/
inductive SysEffect where
  | kill (pid : Nat) (sig : Nat)
  | writePidFile (pid : Nat)
  | logWarning (msg : String)
deriving DecidableEq, Repr

/-- Embeds the PID-file takeover in `main`: if the PID file exists, read
the recorded pid and `os.kill(pid, 15)` it; `ProcessLookupError` (the pid
is not alive, so the signal is never delivered) is caught and only logged;
in every case the daemon then writes its own pid to the PID file. -/
def singleton_startup (self_pid : Nat) (st : SysState) :
    List SysEffect × SysState :=
  match st.pid_file with
  | none => ([SysEffect.writePidFile self_pid], { st with pid_file := some self_pid })
  | some pid =>
    if pid ∈ st.alive then
      ([SysEffect.logWarning "PID file is present",
        SysEffect.kill pid 15,
        SysEffect.logWarning "Done, probably.",
        SysEffect.writePidFile self_pid],
       { st with pid_file := some self_pid })
    else
      ([SysEffect.logWarning "PID file is present",
        SysEffect.logWarning "Process not found.",
        SysEffect.writePidFile self_pid],
       { st with pid_file := some self_pid })

/-- How the daemon process can terminate: a normal interpreter shutdown, a
shutdown driven by an uncaught Python exception (this includes SIGINT,
whose default Python handler raises KeyboardInterrupt), or termination by
the operating-system default action of a signal the program installs no
handler for (for example SIGTERM, signal 15 — exactly what a successor
instance sends during takeover). -/
inductive ExitPath where
  | normalReturn
  | unhandledException
  | signalDefault (sig : Nat)
deriving DecidableEq, Repr

/-- CPython runtime semantics of `atexit`: registered callbacks run at
interpreter shutdown (normal return, `sys.exit`, uncaught exception) but,
per the `atexit` module documentation, are not called when the program is
killed by a signal not handled by Python. -/
def atexit_runs : ExitPath → Bool
  | .normalReturn => true
  | .unhandledException => true
  | .signalDefault _ => false

/-- Whether each of the two files was removed at exit. -/
structure CleanupOutcome where
  pid_file_removed : Bool
  fifo_file_removed : Bool
deriving DecidableEq, Repr

/-- The cleanup `main` installs is exactly `atexit.register(os.unlink,
pid_file)` and `atexit.register(os.unlink, fifo_file)`; no signal handler
is installed anywhere in the program, so each file is removed at exit
precisely when the `atexit` machinery runs on that exit path. -/
def main_exit_cleanup (p : ExitPath) : CleanupOutcome :=
  { pid_file_removed := atexit_runs p, fifo_file_removed := atexit_runs p }

/-- Fixture: a matched spotify window on desktop 0. -/
def wActive : Window := { wid := 1, wm_class := ("spotify", "Spotify"), desktop := 0 }

/-- Fixture: a sticky matched spotify window. -/
def wSticky : Window :=
  { wid := 7, wm_class := ("spotify", "Spotify"), desktop := stickySentinel }

/-- Fixture: a matched spotify window parked on desktop 9. -/
def wParked : Window := { wid := 3, wm_class := ("spotify", "Spotify"), desktop := 9 }

/-- Fixture: the spotify registry entry. -/
def appSpotify : ScratchpadApp :=
  { window_class := ("spotify", "Spotify"),
    app_cmd := some "/home/pedro/.nix-profile/bin/spotify" }

/-- Fixture: invocation environment holding one sticky matched window. -/
def envSticky : ToggleEnv :=
  { clientList := [wSticky], activeDesktop := 0, poll := fun _ => [] }

/-- Fixture: invocation environment holding one parked matched window. -/
def envParked : ToggleEnv :=
  { clientList := [wParked], activeDesktop := 0, poll := fun _ => [] }

/-- Fixture: invocation environment holding one active matched window. -/
def envActive : ToggleEnv :=
  { clientList := [wActive], activeDesktop := 0, poll := fun _ => [] }

/-- Fixture: no matched window; every post-spawn poll discovers one. -/
def envSpawn : ToggleEnv :=
  { clientList := [], activeDesktop := 0, poll := fun _ => [wActive] }

/-- Fixture: no matched window and every post-spawn poll comes back empty. -/
def envTimeout : ToggleEnv :=
  { clientList := [], activeDesktop := 0, poll := fun _ => [] }

theorem windows_subset {a : ScratchpadApp} {cl : List Window} {w : Window}
    (hw : w ∈ a.windows cl) : w ∈ cl :=
  List.mem_of_mem_filter hw

theorem toggle_visible_of_mem {a : ScratchpadApp} {env : ToggleEnv} {d : Nat}
    {w : Window} (hw : w ∈ a.windows env.clientList) :
    toggle_visible a env d =
      ((a.windows env.clientList).map (decideWindow env.activeDesktop d false)).flatten := by
  have hne : ¬ (a.windows env.clientList).length = 0 := by
    intro h0
    rw [List.length_eq_zero] at h0
    rw [h0] at hw
    exact (List.not_mem_nil w) hw
  unfold toggle_visible
  rw [if_neg hne]

theorem route_infix_toggle {a : ScratchpadApp} {env : ToggleEnv} {d : Nat}
    {w : Window} (hw : w ∈ a.windows env.clientList) :
    List.IsInfix (decideWindow env.activeDesktop d false w) (toggle_visible a env d) := by
  rw [toggle_visible_of_mem hw]
  exact List.infix_of_mem_flatten (List.mem_map_of_mem _ hw)

theorem countP_isSpawn_decideWindow (act d : Nat) (js : Bool) (w : Window) :
    (decideWindow act d js w).countP Effect.isSpawn = 0 := by
  unfold decideWindow
  split <;> rfl

theorem countP_isSpawn_routes (act d : Nat) (js : Bool) :
    ∀ ws : List Window,
      ((ws.map (decideWindow act d js)).flatten).countP Effect.isSpawn = 0
  | [] => rfl
  | w :: ws => by
    simp only [List.map_cons, List.flatten_cons, List.countP_append,
      countP_isSpawn_decideWindow, countP_isSpawn_routes act d js ws]

/-- C1: for a registered application whose window-class query returns zero
windows, a single toggle invocation emits exactly one spawn of the launch
command, and whenever the post-spawn poll discovers a window set, every
discovered window receives the Showing effects (sticky, above and dock set),
with no inactive determination consulted. -/
theorem c1_toggle_empty_spawns_once_shows_all
    (a : ScratchpadApp) (env : ToggleEnv) (d : Nat)
    (hempty : a.windows env.clientList = []) :
    (toggle_visible a env d).countP Effect.isSpawn = 1 ∧
    ∀ ws, waitForWindows a env.poll win_wait_attempts 0 = some ws →
      ∀ w ∈ ws, List.IsInfix (showEffects w.wid) (toggle_visible a env d) := by
  have hif : (a.windows env.clientList).length = 0 := by rw [hempty]; rfl
  unfold toggle_visible
  rw [if_pos hif]
  cases hwait : waitForWindows a env.poll win_wait_attempts 0 with
  | none =>
    refine ⟨rfl, fun ws hws => absurd hws (by simp)⟩
  | some ws0 =>
    constructor
    · simp only [List.countP_cons, countP_isSpawn_routes]
      rfl
    · intro ws hws w hw
      rw [Option.some.injEq] at hws
      subst hws
      have hdec : decideWindow env.activeDesktop d true w = showEffects w.wid := by
        simp [decideWindow]
      have hinf :=
        List.infix_of_mem_flatten
          (List.mem_map_of_mem (decideWindow env.activeDesktop d true) hw)
      rw [hdec] at hinf
      obtain ⟨s, t, hst⟩ := hinf
      refine ⟨Effect.logInfo "Spawning" :: Effect.create_subprocess_exec a.app_cmd :: s,
        t, ?_⟩
      show _ = Effect.logInfo "Spawning" :: Effect.create_subprocess_exec a.app_cmd ::
        (List.map (decideWindow env.activeDesktop d true) ws0).flatten
      rw [← hst]
      simp [List.cons_append]

/-- C1 witness: with no spotify window and a poll that finds window 1
immediately, the toggle trace holds exactly one spawn and shows window 1. -/
theorem c1_witness :
    (toggle_visible appSpotify envSpawn 9).countP Effect.isSpawn = 1 ∧
    List.IsInfix (showEffects 1) (toggle_visible appSpotify envSpawn 9) := by
  have h := c1_toggle_empty_spawns_once_shows_all appSpotify envSpawn 9 rfl
  exact ⟨h.1, h.2 [wActive] rfl wActive (by decide)⟩

/-- C2: in the Deciding phase with no preceding spawn, a matched window is
determined currently inactive exactly when its desktop differs from the
active window desktop and is not the sticky sentinel 4294967295; a sentinel
desktop is never inactive, and the route taken follows the determination. -/
theorem c2_inactive_determination
    (activeDesktop inactive_desktop : Nat) (w : Window) :
    (is_not_active activeDesktop w = true ↔
      (w.desktop ≠ activeDesktop ∧ w.desktop ≠ stickySentinel)) ∧
    (w.desktop = stickySentinel → is_not_active activeDesktop w = false) ∧
    decideWindow activeDesktop inactive_desktop false w =
      (if is_not_active activeDesktop w then showEffects w.wid
       else hideEffects w.wid inactive_desktop) := by
  refine ⟨?_, ?_, ?_⟩
  · simp [is_not_active]
  · intro h
    simp [is_not_active, h]
  · simp [decideWindow]

/-- C2 witness: the sticky fixture window is never determined inactive. -/
theorem c2_witness : is_not_active 0 wSticky = false :=
  (c2_inactive_determination 0 9 wSticky).2.1 rfl

/-- C3: a non-sticky matched window sitting on the active window desktop is
routed to Hiding by a toggle invocation: it is moved to the inactive desktop
and its sticky, above and dock flags are cleared. -/
theorem c3_active_window_hidden
    (a : ScratchpadApp) (env : ToggleEnv) (d : Nat) (w : Window)
    (hw : w ∈ a.windows env.clientList)
    (hact : w.desktop = env.activeDesktop)
    (hns : w.desktop ≠ stickySentinel) :
    List.IsInfix (hideEffects w.wid d) (toggle_visible a env d) := by
  have hroute : decideWindow env.activeDesktop d false w = hideEffects w.wid d := by
    simp [decideWindow, is_not_active, hact]
  rw [← hroute]
  exact route_infix_toggle hw

/-- C3 witness: the fixture window on the active desktop 0 is hidden. -/
theorem c3_witness :
    List.IsInfix (hideEffects 1 9) (toggle_visible appSpotify envActive 9) :=
  c3_active_window_hidden appSpotify envActive 9 wActive (by decide) rfl (by decide)

/-- C4 counterexample: a sticky matched window (desktop 4294967295) is routed
to Hiding, not Showing: the invocation trace is exactly the Hiding effects
and never sets the sticky flag, refuting the claim that sticky windows get
the Showing flags. -/
theorem c4_counterexample :
    toggle_visible appSpotify envSticky 9 = hideEffects 7 9 ∧
    Effect.setWmState 7 1 "_NET_WM_STATE_STICKY" ∉ toggle_visible appSpotify envSticky 9 := by
  constructor
  · rfl
  · decide

/-- C4 amended: windows parked on the inactive desktop are routed to Showing
provided the inactive desktop is neither the active window desktop nor the
sticky sentinel; windows whose desktop is the sticky sentinel are instead
routed to Hiding. -/
theorem c4_amended_inactive_desktop_shown
    (a : ScratchpadApp) (env : ToggleEnv) (d : Nat) (w : Window)
    (hw : w ∈ a.windows env.clientList) :
    (w.desktop = d → d ≠ env.activeDesktop → d ≠ stickySentinel →
      List.IsInfix (showEffects w.wid) (toggle_visible a env d)) ∧
    (w.desktop = stickySentinel →
      List.IsInfix (hideEffects w.wid d) (toggle_visible a env d)) := by
  constructor
  · intro hpark hne hns
    have hroute : decideWindow env.activeDesktop d false w = showEffects w.wid := by
      simp [decideWindow, is_not_active, hpark, hne, hns]
    rw [← hroute]
    exact route_infix_toggle hw
  · intro hsticky
    have hroute : decideWindow env.activeDesktop d false w = hideEffects w.wid d := by
      simp [decideWindow, is_not_active, hsticky]
    rw [← hroute]
    exact route_infix_toggle hw

theorem waitForWindows_agree (a : ScratchpadApp) (p q : Nat → List Window) :
    ∀ fuel k, (∀ j, j < fuel → p (k + j) = q (k + j)) →
      waitForWindows a p fuel k = waitForWindows a q fuel k := by
  intro fuel
  induction fuel with
  | zero => intro k _; rfl
  | succ n ih =>
    intro k h
    have h0 : p k = q k := by simpa using h 0 (Nat.succ_pos n)
    unfold waitForWindows
    rw [h0]
    by_cases hlen : 0 < (a.windows (q k)).length
    · rw [if_pos hlen, if_pos hlen]
    · rw [if_neg hlen, if_neg hlen]
      refine ih (k + 1) (fun j hj => ?_)
      have := h (1 + j) (by omega)
      rwa [← Nat.add_assoc] at this

theorem waitForWindows_first_match (a : ScratchpadApp) (p : Nat → List Window) :
    ∀ fuel s k0, s ≤ k0 → k0 < s + fuel →
      (∀ j, s ≤ j → j < k0 → a.windows (p j) = []) →
      a.windows (p k0) ≠ [] →
      waitForWindows a p fuel s = some (a.windows (p k0)) := by
  intro fuel
  induction fuel with
  | zero => intro s k0 h1 h2 _ _; omega
  | succ n ih =>
    intro s k0 hs hlt hbefore hne
    unfold waitForWindows
    by_cases heq : s = k0
    · subst heq
      rw [if_pos (List.length_pos.mpr hne)]
    · rw [if_neg ?_]
      · exact ih (s + 1) k0 (by omega) (by omega)
          (fun j hj1 hj2 => hbefore j (by omega) hj2) hne
      · have hempty : a.windows (p s) = [] := hbefore s le_rfl (by omega)
        simp [hempty]

theorem waitForWindows_timeout (a : ScratchpadApp) (p : Nat → List Window) :
    ∀ fuel s, (∀ j, j < fuel → a.windows (p (s + j)) = []) →
      waitForWindows a p fuel s = none := by
  intro fuel
  induction fuel with
  | zero => intro s _; rfl
  | succ n ih =>
    intro s h
    have h0 : a.windows (p s) = [] := by simpa using h 0 (Nat.succ_pos n)
    unfold waitForWindows
    rw [if_neg (by simp [h0])]
    refine ih (s + 1) (fun j hj => ?_)
    have := h (1 + j) (by omega)
    rwa [← Nat.add_assoc] at this

/-- C5: the post-spawn wait polls at most `win_wait_attempts` times, where
that bound equals the integer part of the timeout divided by the interval;
the first non-empty poll is returned as the discovered window set; when all
attempts come back empty, the invocation trace is just the spawn plus an
error log, containing no window-state mutation, and the invocation
terminates by returning that trace. -/
theorem c5_poll_budget_and_timeout
    (a : ScratchpadApp) (env : ToggleEnv) (d : Nat) :
    win_wait_attempts = Nat.floor (win_wait_timeout / win_wait_interval) ∧
    (∀ p q : Nat → List Window, (∀ k, k < win_wait_attempts → p k = q k) →
      waitForWindows a p win_wait_attempts 0 = waitForWindows a q win_wait_attempts 0) ∧
    (∀ k0, k0 < win_wait_attempts →
      (∀ j, j < k0 → a.windows (env.poll j) = []) →
      a.windows (env.poll k0) ≠ [] →
      waitForWindows a env.poll win_wait_attempts 0 = some (a.windows (env.poll k0))) ∧
    (a.windows env.clientList = [] →
      (∀ k, k < win_wait_attempts → a.windows (env.poll k) = []) →
      toggle_visible a env d =
        [Effect.logInfo "Spawning", Effect.create_subprocess_exec a.app_cmd,
         Effect.logError "Failed to find window"] ∧
      ∀ e ∈ toggle_visible a env d, e.isWindowMutation = false) := by
  refine ⟨?_, ?_, ?_, ?_⟩
  · norm_num [win_wait_attempts, win_wait_timeout, win_wait_interval]
  · intro p q h
    exact waitForWindows_agree a p q win_wait_attempts 0 (fun j hj => by simpa using h j hj)
  · intro k0 hk0 hbefore hne
    exact waitForWindows_first_match a env.poll win_wait_attempts 0 k0 (Nat.zero_le k0)
      (by omega) (fun j _ hj2 => hbefore j hj2) hne
  · intro hempty hall
    have hwait : waitForWindows a env.poll win_wait_attempts 0 = none :=
      waitForWindows_timeout a env.poll win_wait_attempts 0
        (fun j hj => by simpa using hall j hj)
    have htrace : toggle_visible a env d =
        [Effect.logInfo "Spawning", Effect.create_subprocess_exec a.app_cmd,
         Effect.logError "Failed to find window"] := by
      unfold toggle_visible
      rw [if_pos (by rw [hempty]; rfl), hwait]
    refine ⟨htrace, ?_⟩
    intro e he
    rw [htrace] at he
    simp only [List.mem_cons, List.not_mem_nil, or_false] at he
    rcases he with rfl | rfl | rfl <;> rfl

/-- C5 witness: with no window and empty polls, the trace is spawn plus an
error log, and a poll discovering a window at attempt 2 is returned. -/
theorem c5_witness :
    (toggle_visible appSpotify envTimeout 9 =
      [Effect.logInfo "Spawning",
       Effect.create_subprocess_exec (some "/home/pedro/.nix-profile/bin/spotify"),
       Effect.logError "Failed to find window"]) ∧
    waitForWindows appSpotify (fun k => if k = 2 then [wActive] else [])
      win_wait_attempts 0 = some [wActive] := by
  constructor
  · exact ((c5_poll_budget_and_timeout appSpotify envTimeout 9).2.2.2 rfl
      (fun k _ => rfl)).1
  · have h := (c5_poll_budget_and_timeout appSpotify
      { clientList := [], activeDesktop := 0,
        poll := fun k => if k = 2 then [wActive] else [] } 9).2.2.1 2 (by decide)
      (fun j hj1 => by
        have : j = 0 ∨ j = 1 := by omega
        rcases this with rfl | rfl <;> rfl)
      (by decide)
    exact h.trans (by decide)

/-- C4 witness: the parked fixture window (desktop 9, active desktop 0) is
shown, and the sticky fixture window is hidden. -/
theorem c4_witness :
    List.IsInfix (showEffects 3) (toggle_visible appSpotify envParked 9) ∧
    List.IsInfix (hideEffects 7 9) (toggle_visible appSpotify envSticky 9) :=
  ⟨(c4_amended_inactive_desktop_shown appSpotify envParked 9 wParked (by decide)).1
      rfl (by decide) (by decide),
   (c4_amended_inactive_desktop_shown appSpotify envSticky 9 wSticky (by decide)).2 rfl⟩

/-- C6: a stripped payload that is not a registry key makes the listener log
an error and dispatch nothing, and the listener goes on handling every later
payload unchanged. -/
theorem c6_unknown_token_ignored
    (data : String)
    (hmiss : scratchpad_apps.lookup (pyStrip data) = none) :
    ListenerEffect.logError ("Unknown app " ++ pyStrip data) ∈ data_received data ∧
    (∀ name, ListenerEffect.create_task_toggle name ∉ data_received data) ∧
    (∀ ds, listenLoop (data :: ds) = data_received data ++ listenLoop ds) := by
  refine ⟨?_, ?_, fun ds => rfl⟩
  · unfold data_received
    rw [hmiss]
    simp
  · intro name h
    unfold data_received at h
    rw [hmiss] at h
    simp at h

/-- C6 witness: the token unknownapp is logged as unknown and dispatches
nothing. -/
theorem c6_witness :
    ListenerEffect.logError ("Unknown app " ++ pyStrip "unknownapp") ∈
      data_received "unknownapp" ∧
    ∀ name, ListenerEffect.create_task_toggle name ∉ data_received "unknownapp" := by
  have h := c6_unknown_token_ignored "unknownapp" (by decide)
  exact ⟨h.1, h.2.1⟩

/-- C7 counterexample: a payload that strips to the empty string is not
silently ignored: the listener logs it as an unknown-token error, refuting
the claim that no unknown-token error is reported. -/
theorem c7_counterexample :
    data_received "\n" =
      [ListenerEffect.logInfo "Handling scratchpad command: ",
       ListenerEffect.logError "Unknown app "] ∧
    ListenerEffect.logError "Unknown app " ∈ data_received "\n" := by
  constructor <;> decide

/-- C7 amended: a payload that strips to the empty string triggers no toggle
dispatch and no window mutation, but it is logged as an unknown-token error
like any other unregistered token. -/
theorem c7_amended_empty_token
    (data : String) (h : pyStrip data = "") :
    (∀ name, ListenerEffect.create_task_toggle name ∉ data_received data) ∧
    ListenerEffect.logError ("Unknown app " ++ pyStrip data) ∈ data_received data := by
  have hmiss : scratchpad_apps.lookup (pyStrip data) = none := by rw [h]; rfl
  constructor
  · intro name hmem
    unfold data_received at hmem
    rw [hmiss] at hmem
    simp at hmem
  · unfold data_received
    rw [hmiss]
    simp

/-- C7 witness: a lone newline strips to the empty string, dispatches
nothing and is logged as unknown. -/
theorem c7_witness :
    ListenerEffect.logError ("Unknown app " ++ pyStrip "\n") ∈ data_received "\n" :=
  (c7_amended_empty_token "\n" (by decide)).2

/-- C8 counterexample: on an exit forced by the default action of signal 15
(SIGTERM, exactly what a successor instance sends at takeover) the atexit
callbacks never run, so neither the PID file nor the fifo is removed,
refuting removal on every exit path. -/
theorem c8_counterexample :
    main_exit_cleanup (ExitPath.signalDefault 15) =
      { pid_file_removed := false, fifo_file_removed := false } := rfl

/-- C8 amended: the PID file and the fifo path are both removed on normal
shutdown and on shutdowns driven by an uncaught exception (which covers
SIGINT through KeyboardInterrupt), but an exit forced by the default action
of an unhandled signal such as SIGTERM removes neither. -/
theorem c8_amended_cleanup_paths :
    main_exit_cleanup ExitPath.normalReturn =
      { pid_file_removed := true, fifo_file_removed := true } ∧
    main_exit_cleanup ExitPath.unhandledException =
      { pid_file_removed := true, fifo_file_removed := true } ∧
    ∀ sig, main_exit_cleanup (ExitPath.signalDefault sig) =
      { pid_file_removed := false, fifo_file_removed := false } :=
  ⟨rfl, rfl, fun _ => rfl⟩

/-- C9: at startup the daemon signals the recorded pid with SIGTERM when the
PID file exists and that process is alive, treats an absent process as
benign (no kill delivered, no failure), and in every case ends up with its
own pid written to the PID file. -/
theorem c9_singleton_takeover (self_pid : Nat) (st : SysState) :
    (singleton_startup self_pid st).2.pid_file = some self_pid ∧
    SysEffect.writePidFile self_pid ∈ (singleton_startup self_pid st).1 ∧
    (∀ pid, st.pid_file = some pid → pid ∈ st.alive →
      SysEffect.kill pid 15 ∈ (singleton_startup self_pid st).1) ∧
    (∀ pid, st.pid_file = some pid → pid ∉ st.alive →
      ∀ q s, SysEffect.kill q s ∉ (singleton_startup self_pid st).1) := by
  obtain ⟨pf, alive⟩ := st
  cases pf with
  | none =>
    refine ⟨rfl, by simp [singleton_startup], ?_, ?_⟩
    · intro pid hpid
      exact absurd hpid (by simp)
    · intro pid hpid
      exact absurd hpid (by simp)
  | some p =>
    by_cases hp : p ∈ alive
    · refine ⟨by simp [singleton_startup, hp], by simp [singleton_startup, hp], ?_, ?_⟩
      · intro pid hpid _
        obtain rfl : p = pid := by simpa using hpid
        simp [singleton_startup, hp]
      · intro pid hpid hnal
        obtain rfl : p = pid := by simpa using hpid
        exact absurd hp hnal
    · refine ⟨by simp [singleton_startup, hp], by simp [singleton_startup, hp], ?_, ?_⟩
      · intro pid hpid hal
        obtain rfl : p = pid := by simpa using hpid
        exact absurd hal hp
      · intro pid hpid _ q s hmem
        simp [singleton_startup, hp] at hmem

/-- C9 witness: a live recorded pid 42 receives SIGTERM; with a stale
recorded pid 41 no kill is delivered; the new pid 7 is recorded. -/
theorem c9_witness :
    SysEffect.kill 42 15 ∈
      (singleton_startup 7 { pid_file := some 42, alive := [42] }).1 ∧
    SysEffect.kill 41 15 ∉
      (singleton_startup 7 { pid_file := some 41, alive := [] }).1 ∧
    (singleton_startup 7 { pid_file := some 41, alive := [] }).2.pid_file = some 7 :=
  ⟨(c9_singleton_takeover 7 { pid_file := some 42, alive := [42] }).2.2.1 42 rfl
      (by decide),
   (c9_singleton_takeover 7 { pid_file := some 41, alive := [] }).2.2.2 41 rfl
      (by decide) 41 15,
   (c9_singleton_takeover 7 { pid_file := some 41, alive := [] }).1⟩

/-- C10: an already-running matched window routed to Showing keeps its
desktop assignment: the toggle trace carries its Showing flag effects and
contains no setWmDesktop call aimed at it, provided window ids are unique
in the client list. -/
theorem c10_showing_never_moves_window
    (a : ScratchpadApp) (env : ToggleEnv) (d : Nat) (w : Window)
    (hw : w ∈ a.windows env.clientList)
    (hroute : is_not_active env.activeDesktop w = true)
    (hnodup : (env.clientList.map Window.wid).Nodup) :
    List.IsInfix (showEffects w.wid) (toggle_visible a env d) ∧
    ∀ dd, Effect.setWmDesktop w.wid dd ∉ toggle_visible a env d := by
  constructor
  · rw [show showEffects w.wid = decideWindow env.activeDesktop d false w by
      simp [decideWindow, hroute]]
    exact route_infix_toggle hw
  · intro dd hmem
    rw [toggle_visible_of_mem hw, List.mem_flatten] at hmem
    obtain ⟨l, hl, hel⟩ := hmem
    rw [List.mem_map] at hl
    obtain ⟨w2, hw2, rfl⟩ := hl
    cases hb : is_not_active env.activeDesktop w2 with
    | true =>
      rw [show decideWindow env.activeDesktop d false w2 = showEffects w2.wid by
        simp [decideWindow, hb]] at hel
      simp [showEffects] at hel
    | false =>
      rw [show decideWindow env.activeDesktop d false w2 = hideEffects w2.wid d by
        simp [decideWindow, hb]] at hel
      simp only [hideEffects, List.mem_cons, List.not_mem_nil, or_false] at hel
      rcases hel with h | h | h | h | h
      · exact absurd h (by simp)
      · have hwid : w.wid = w2.wid := by injection h
        have hww : w = w2 :=
          List.inj_on_of_nodup_map hnodup (windows_subset hw) (windows_subset hw2) hwid
        rw [hww, hb] at hroute
        exact absurd hroute (by decide)
      · exact absurd h (by simp)
      · exact absurd h (by simp)
      · exact absurd h (by simp)

/-- C10 witness: the parked fixture window keeps desktop 9 while being
shown with inactive desktop 5. -/
theorem c10_witness :
    List.IsInfix (showEffects 3) (toggle_visible appSpotify envParked 5) ∧
    ∀ dd, Effect.setWmDesktop 3 dd ∉ toggle_visible appSpotify envParked 5 :=
  c10_showing_never_moves_window appSpotify envParked 5 wParked (by decide) (by decide)
    (by decide)

end Scratchpad
